import Mathlib

/-!
Verification development for the book-bids-project repository.

The repository consists of two Python pipelines:
  * src/api.py      — an Open Library search client ("library source"),
  * src/googleapi.py — a Google Books search client ("books-catalog source").

Each pipeline builds a query, fetches JSON from the provider, normalizes the
records, computes a heuristic popularity score, and renders the results as an
HTML document and a CSV table.  The definitions below are a shallow embedding
of that code: Python dicts become structures with `Option` fields (absent key
= `none`), Python floats become `ℚ`, Python truthiness becomes explicit
`truthy…` helpers, and the single HTTP fetch is modelled by passing in the
outcome of the request-and-parse step as an `Except` value.  Numeric values
rendered into report text go through `pyStr`; no property below depends on
the exact digit string chosen for a number.
-/

/-- Truthiness of an optional rational, as Python evaluates it: absent
(`None`) and `0`/`0.0` are falsy, everything else truthy. -/
def truthyQ : Option ℚ → Bool
  | none => false
  | some v => v != 0

/-- Truthiness of an optional integer: absent and `0` are falsy. -/
def truthyI : Option Int → Bool
  | none => false
  | some v => v != 0

/-- Truthiness of an optional string: absent and the empty string are falsy. -/
def truthyS : Option String → Bool
  | none => false
  | some s => s != ""

/-- Round a rational to the nearest integer, ties to even — the rounding used
by Python's built-in `round`. -/
def roundHalfEven (q : ℚ) : ℤ :=
  let f := ⌊q⌋
  let r := q - f
  if r < 1/2 then f
  else if r > 1/2 then f + 1
  else if f % 2 = 0 then f else f + 1

/-- Model of Python's `round(x, 2)`: round to two decimal places, ties to
even. -/
def pyRound2 (q : ℚ) : ℚ := (roundHalfEven (q * 100) : ℚ) / 100

/-- Rendering of a Python number as text for report output.  The exact digit
string is immaterial to every property proved below. -/
def pyStr (q : ℚ) : String := toString q

/-- Model of Python's `html.escape` on one character: the five
HTML-significant characters become entity references. -/
def escapeChar (c : Char) : String :=
  if c = '&' then "&amp;"
  else if c = '<' then "&lt;"
  else if c = '>' then "&gt;"
  else if c = '"' then "&quot;"
  else if c = '\'' then "&#x27;"
  else String.singleton c

/-- Model of Python's `html.escape` (with its default `quote=True`). -/
def htmlEscape (s : String) : String := String.join (s.data.map escapeChar)

/-- Model of Python's string slicing `s[:n]` (by code points). -/
def pyTake (s : String) (n : Nat) : String := ⟨s.data.take n⟩

/-- Render an optional integer the way Python's `csv` module renders dict
values: `None` becomes the empty cell. -/
def csvOptI : Option Int → String
  | none => ""
  | some n => toString n

/-- Render an optional rational for a CSV cell: `None` becomes empty. -/
def csvOptQ : Option ℚ → String
  | none => ""
  | some q => pyStr q

/-- Render an optional string for a CSV cell: `None` becomes empty. -/
def csvOptS : Option String → String
  | none => ""
  | some s => s

/-- Model of a Python f-string interpolation of `x or d` where `x` is an
optional integer and `d` a fallback text (used for `{book["first_year"] or
"Unknown"}` and similar). -/
def pyOrI (o : Option Int) (d : String) : String :=
  match o with
  | some n => if n = 0 then d else toString n
  | none => d

/-- Model of a Python f-string interpolation of `x or d` for an optional
float. -/
def pyOrQ (o : Option ℚ) (d : String) : String :=
  match o with
  | some q => if q = 0 then d else pyStr q
  | none => d

/-- Model of `str(x)` for an optional value: Python renders `None` as the
text `None`. -/
def pyOptS : Option String → String
  | none => "None"
  | some s => s

/-- Model of `str(x)` for an optional integer. -/
def pyOptI : Option Int → String
  | none => "None"
  | some n => toString n

namespace OpenLib

/-- One raw Open Library search document, restricted to the fields
`src/api.py` reads.  Absent JSON keys are `none` / `false` / `[]`. -/
structure OLRecord where
  key : Option String := none
  title : Option String := none
  subtitle : Option String := none
  author_name : List String := []
  first_publish_year : Option Int := none
  publisher : List String := []
  number_of_pages_median : Option Int := none
  isbn : List String := []
  subject : List String := []
  cover_i : Option Int := none
  ratings_average : Option ℚ := none
  ratings_count : Option Int := none
  want_to_read_count : Option Int := none
  currently_reading_count : Option Int := none
  already_read_count : Option Int := none
  edition_count : Option Int := none
  has_fulltext : Bool := false
  lending_edition_s : Option String := none
  public_scan_b : Bool := false
  ia : List String := []

/-- The `docs`/`numFound` shape of an Open Library search response. -/
structure OLResponse where
  docs : List OLRecord := []
  numFound : Int := 0

/-- The query clauses built by `search_books` (src/api.py lines 36–42): the
free text verbatim, then quoted `field:"value"` clauses for author, title and
subject, then an unquoted `language:value` clause, each kept only when the
facet is non-empty. -/
def query_parts (query author title subject language : String) : List String :=
  (if query ≠ "" then [query] else []) ++
  (if author ≠ "" then ["author:\"" ++ author ++ "\""] else []) ++
  (if title ≠ "" then ["title:\"" ++ title ++ "\""] else []) ++
  (if subject ≠ "" then ["subject:\"" ++ subject ++ "\""] else []) ++
  (if language ≠ "" then ["language:" ++ language] else [])

/-- The composed `q` parameter (src/api.py line 43): clauses joined with
`" AND "`, or the wildcard `*` when no clause exists. -/
def build_query (query author title subject language : String) : String :=
  let parts := query_parts query author title subject language
  if parts.isEmpty then "*" else String.intercalate " AND " parts

/-- The `limit` request parameter (src/api.py line 32): clamped to 100. -/
def clamp_limit (limit : Nat) : Nat := min limit 100

/-- The result of `search_books` (src/api.py lines 45–53) as a function of
the outcome of the HTTP GET + status check + JSON parse: on success the
parsed body is returned, on any exception the fixed empty-results structure
`{"docs": [], "numFound": 0}` is returned. -/
def search_books (outcome : Except String OLResponse) : OLResponse :=
  match outcome with
  | Except.ok r => r
  | Except.error _ => { docs := [], numFound := 0 }

/-- Cover image URL synthesis (src/api.py lines 55–56): a fixed template
around the numeric cover id, or `None` when the id is absent or `0`. -/
def get_cover_url (cover_id : Option Int) (size : String := "M") : Option String :=
  if truthyI cover_id then
    some ("https://covers.openlibrary.org/b/id/" ++ toString (cover_id.getD 0) ++
      "-" ++ size ++ ".jpg")
  else none

/-- The library-source popularity score (src/api.py lines 58–75).  The two
rating terms are added only when both `ratings_average` and `ratings_count`
are present and non-zero; the engagement, edition and flag terms are
unconditional. -/
def calculate_popularity (book : OLRecord) : ℚ :=
  let score : ℚ := 0
  let score := if truthyQ book.ratings_average && truthyI book.ratings_count then
      score + (book.ratings_average.getD 0 / 5) * 20 +
        min ((book.ratings_count.getD 0 : ℚ) / 100) 20
    else score
  let reading : Int := book.want_to_read_count.getD 0 +
    book.currently_reading_count.getD 0 + book.already_read_count.getD 0
  let score := score + min ((reading : ℚ) / 50) 30
  let score := score + min ((book.edition_count.getD 0 : ℚ) * 2) 20
  let score := if book.has_fulltext then score + 5 else score
  let score := if truthyS book.lending_edition_s then score + 5 else score
  pyRound2 score

/-- Availability classification (src/api.py lines 77–82): a fixed-priority
decision list over the four access flags. -/
def get_availability (book : OLRecord) : String :=
  if book.has_fulltext then "Full Text Available"
  else if truthyS book.lending_edition_s then "Available for Lending"
  else if book.public_scan_b then "Public Scan Available"
  else if !book.ia.isEmpty then "Archive.org Available"
  else "Metadata Only"

/-- Reading level from the median page count (src/api.py lines 84–88), with
an absent count defaulting to 0. -/
def get_reading_level (book : OLRecord) : String :=
  let pages := book.number_of_pages_median.getD 0
  if pages > 800 then "Advanced"
  else if pages > 400 then "Intermediate"
  else "Beginner"

/-- The normalized book dictionary produced by `format_book`
(src/api.py lines 90–112). -/
structure FormattedBook where
  key : String := ""
  url : String := ""
  title : String := ""
  subtitle : String := ""
  authors : List String := []
  first_year : Option Int := none
  publishers : List String := []
  pages : Option Int := none
  isbn : List String := []
  subjects : List String := []
  cover_url : Option String := none
  rating : Option ℚ := none
  rating_count : Option Int := none
  want_read : Int := 0
  reading_now : Int := 0
  have_read : Int := 0
  editions : Int := 0
  popularity : ℚ := 0
  availability : String := ""
  level : String := ""

/-- Record normalization (src/api.py lines 90–112). -/
def format_book (book : OLRecord) : FormattedBook :=
  { key := book.key.getD ""
    url := "https://openlibrary.org" ++ book.key.getD ""
    title := book.title.getD "Unknown"
    subtitle := book.subtitle.getD ""
    authors := book.author_name
    first_year := book.first_publish_year
    publishers := book.publisher
    pages := book.number_of_pages_median
    isbn := book.isbn
    subjects := book.subject
    cover_url := get_cover_url book.cover_i
    rating := book.ratings_average
    rating_count := book.ratings_count
    want_read := book.want_to_read_count.getD 0
    reading_now := book.currently_reading_count.getD 0
    have_read := book.already_read_count.getD 0
    editions := book.edition_count.getD 0
    popularity := calculate_popularity book
    availability := get_availability book
    level := get_reading_level book }

/-- The `authors` local of the card loop (src/api.py line 117): joined names
or the placeholder. -/
def authors_text (bk : FormattedBook) : String :=
  if !bk.authors.isEmpty then String.intercalate ", " bk.authors else "Unknown"

/-- The `cover_html` local of the card loop (src/api.py line 118): an image
tag around the cover URL, emitted verbatim, or a placeholder box. -/
def cover_html (bk : FormattedBook) : String :=
  if truthyS bk.cover_url then "<img src=\"" ++ bk.cover_url.getD "" ++ "\">"
  else "<div class=\"no-cover\">No Cover</div>"

/-- The `subjects_html` local of the card loop (src/api.py line 119): the
first five subjects joined, or the placeholder. -/
def subjects_text (bk : FormattedBook) : String :=
  if !bk.subjects.isEmpty then String.intercalate ", " (bk.subjects.take 5)
  else "None"

/-- One HTML card: the body of the for-loop in `generate_html`
(src/api.py lines 121–139).  Title, author list and subject list pass
through `htmlEscape`; the cover URL and the detail-page URL are emitted
verbatim. -/
def card_html (bk : FormattedBook) : String :=
  "\n            <div class=\"card\">\n                <div class=\"score\">" ++
  pyStr bk.popularity ++
  "</div>\n                <h2>" ++ htmlEscape bk.title ++
  "</h2>\n                <p>by " ++ htmlEscape (authors_text bk) ++
  "</p>\n                <div class=\"cover\">" ++ cover_html bk ++
  "</div>\n                <div class=\"info\">\n                    <p><strong>Year:</strong> " ++
  pyOrI bk.first_year "Unknown" ++
  "</p>\n                    <p><strong>Pages:</strong> " ++ pyOrI bk.pages "Unknown" ++
  "</p>\n                    <p><strong>Rating:</strong> " ++ pyOrQ bk.rating "N/A" ++
  " (" ++ toString (bk.rating_count.getD 0) ++
  " ratings)</p>\n                    <p><strong>Editions:</strong> " ++ toString bk.editions ++
  "</p>\n                    <p><strong>Level:</strong> " ++ bk.level ++
  "</p>\n                    <p><strong>Status:</strong> " ++ bk.availability ++
  "</p>\n                    <p><strong>Want to Read:</strong> " ++ toString bk.want_read ++
  "</p>\n                    <p><strong>Subjects:</strong> " ++ htmlEscape (subjects_text bk) ++
  "</p>\n                </div>\n                <a href=\"" ++ bk.url ++
  "\" target=\"_blank\">View on Open Library</a>\n            </div>\n            "

/-- The accumulated `cards_html` of `generate_html`: one card per book, in
input order. -/
def cards_html (books : List FormattedBook) : List String := books.map card_html

/-- The inline stylesheet of the generated document (src/api.py
lines 146–210). -/
def ol_css : String :=
  "
        body \x7b
            font-family: Arial, sans-serif;
            background: linear-gradient(135deg, #f5f7fa 0%, #c3cfe2 100%);
            padding: 20px;
        \x7d
        .container \x7b max-width: 1200px; margin: 0 auto; \x7d
        .header \x7b
            background: white;
            padding: 20px;
            border-radius: 10px;
            text-align: center;
            margin-bottom: 20px;
        \x7d
        .grid \x7b
            display: grid;
            grid-template-columns: repeat(auto-fit, minmax(350px, 1fr));
            gap: 20px;
        \x7d
        .card \x7b
            background: white;
            padding: 20px;
            border-radius: 10px;
            box-shadow: 0 4px 6px rgba(0,0,0,0.1);
            position: relative;
        \x7d
        .card:hover \x7b transform: translateY(-5px); transition: 0.3s; \x7d
        .score \x7b
            position: absolute;
            top: 10px;
            right: 10px;
            background: #e74c3c;
            color: white;
            padding: 8px 12px;
            border-radius: 20px;
            font-weight: bold;
        \x7d
        .card h2 \x7b color: #2c3e50; font-size: 1.3em; margin-bottom: 5px; \x7d
        .card p \x7b margin: 8px 0; color: #555; \x7d
        .cover \x7b text-align: center; margin: 15px 0; \x7d
        .cover img \x7b max-width: 100px; border-radius: 5px; box-shadow: 0 2px 4px rgba(0,0,0,0.2); \x7d
        .no-cover \x7b
            width: 100px;
            height: 150px;
            background: #95a5a6;
            display: inline-flex;
            align-items: center;
            justify-content: center;
            border-radius: 5px;
            color: white;
            font-weight: bold;
        \x7d
        .card a \x7b
            display: inline-block;
            margin-top: 10px;
            padding: 8px 15px;
            background: #3498db;
            color: white;
            text-decoration: none;
            border-radius: 5px;
        \x7d
        .card a:hover \x7b background: #2980b9; \x7d
        .info \x7b margin-top: 10px; \x7d
        strong \x7b color: #2c3e50; \x7d
    "

/-- The complete generated HTML document (src/api.py lines 114–226).  The
echoed query passes through `htmlEscape` when non-empty; `now` stands for
the timestamp text interpolated from `datetime.now()`. -/
def generate_html (books : List FormattedBook) (query : String) (total : Int)
    (now : String) : String :=
  "<!DOCTYPE html>\n<html>\n<head>\n    <meta charset=\"UTF-8\">\n    <title>Open Library Books</title>\n    <style>" ++
  ol_css ++
  "</style>\n</head>\n<body>\n    <div class=\"container\">\n        <div class=\"header\">\n            <h1>📚 Open Library Books</h1>\n            <p>Query: " ++
  (if query ≠ "" then htmlEscape query else "All Books") ++
  "</p>\n            <p>Found " ++ toString total ++ " books | Showing " ++
  toString books.length ++
  "</p>\n            <p style=\"font-size: 0.9em; color: #777;\">Generated: " ++ now ++
  "</p>\n        </div>\n        <div class=\"grid\">\n            " ++
  String.join (cards_html books) ++
  "\n        </div>\n    </div>\n</body>\n</html>"

/-- One CSV data row (src/api.py lines 237–250), in the fixed column order
title, authors, first_year, publishers, pages, rating, popularity,
availability, level, url.  List fields are joined with `"; "` and the
publisher list is truncated to two entries; absent optional values render as
empty cells. -/
def csv_row (bk : FormattedBook) : List String :=
  [bk.title,
   String.intercalate "; " bk.authors,
   csvOptI bk.first_year,
   String.intercalate "; " (bk.publishers.take 2),
   csvOptI bk.pages,
   csvOptQ bk.rating,
   pyStr bk.popularity,
   bk.availability,
   bk.level,
   bk.url]

/-- The data rows written by `save_csv` (src/api.py lines 228–251): nothing
at all for an empty book list (the function returns before opening the
file), otherwise one row per book in input order. -/
def save_csv (books : List FormattedBook) : List (List String) :=
  if books.isEmpty then [] else books.map csv_row

end OpenLib

namespace GoogleBooks

/-- One entry of a volume's `industryIdentifiers` array. -/
structure IndustryIdentifier where
  idType : String
  identifier : String

/-- The `volumeInfo` sub-object of one raw item, restricted to the fields
`src/googleapi.py` reads. -/
structure VolumeInfo where
  title : Option String := none
  subtitle : Option String := none
  authors : Option (List String) := none
  publisher : Option String := none
  publishedDate : Option String := none
  pageCount : Option Int := none
  categories : Option (List String) := none
  description : Option String := none
  language : Option String := none
  industryIdentifiers : Option (List IndustryIdentifier) := none
  previewLink : Option String := none
  infoLink : Option String := none
  thumbnail : Option String := none
  averageRating : Option ℚ := none
  ratingsCount : Option Int := none

/-- The nested `retailPrice` object of `saleInfo`. -/
structure RetailPrice where
  amount : Option ℚ := none

/-- The `saleInfo` sub-object of one raw item. -/
structure SaleInfo where
  saleability : Option String := none
  retailPrice : Option RetailPrice := none

/-- One raw item of a Google Books volumes response. -/
structure RawItem where
  volumeInfo : VolumeInfo := {}
  saleInfo : SaleInfo := {}

/-- A volumes response body: `items` may be absent entirely when the search
matched nothing. -/
structure GResponse where
  items : Option (List RawItem) := none

/-- The normalized book dictionary `b` built inside `fetch_books`
(src/googleapi.py lines 35–66). -/
structure GBook where
  title : String := ""
  subtitle : String := ""
  authors : List String := []
  publisher : Option String := none
  publishedDate : Option String := none
  pageCount : Option Int := none
  categories : List String := []
  description : String := ""
  language : Option String := none
  isbn_10 : Option String := none
  isbn_13 : Option String := none
  other_ids : List String := []
  previewLink : Option String := none
  infoLink : Option String := none
  image_url : Option String := none
  avg_rating : Option ℚ := none
  ratings_count : Option Int := none
  saleability : Option String := none
  price : Option ℚ := none

/-- The last `ISBN_13` identifier of the list, if any: the assignment inside
the loop over `industryIdentifiers` lets a later entry overwrite an earlier
one. -/
def isbn13_of (ids : List IndustryIdentifier) : Option String :=
  ((ids.filter (fun i => i.idType == "ISBN_13")).map (fun i => i.identifier)).getLast?

/-- The last `ISBN_10` identifier of the list, if any. -/
def isbn10_of (ids : List IndustryIdentifier) : Option String :=
  ((ids.filter (fun i => i.idType == "ISBN_10")).map (fun i => i.identifier)).getLast?

/-- Normalization of one raw item into the book dictionary
(src/googleapi.py lines 33–65): defaulted scalar and list fields, the ISBN
partition by type tag, and the price read only when both `retailPrice` and
its `amount` are present. -/
def format_item (item : RawItem) : GBook :=
  let info := item.volumeInfo
  let sale := item.saleInfo
  let ids := info.industryIdentifiers.getD []
  { title := info.title.getD ""
    subtitle := info.subtitle.getD ""
    authors := info.authors.getD []
    publisher := info.publisher
    publishedDate := info.publishedDate
    pageCount := info.pageCount
    categories := info.categories.getD []
    description := info.description.getD ""
    language := info.language
    isbn_10 := isbn10_of ids
    isbn_13 := isbn13_of ids
    other_ids := ((ids.filter
      (fun i => i.idType != "ISBN_13" && i.idType != "ISBN_10")).map
      (fun i => i.identifier))
    previewLink := info.previewLink
    infoLink := info.infoLink
    image_url := info.thumbnail
    avg_rating := info.averageRating
    ratings_count := info.ratingsCount
    saleability := sale.saleability
    price := (sale.retailPrice.bind (fun rp => rp.amount)) }

/-- The `maxResults` request parameter (src/googleapi.py lines 14–18):
clamped to 40. -/
def max_books (limit : Nat) : Nat := min limit 40

/-- The result of `fetch_books` (src/googleapi.py lines 25–71) as a function
of the outcome of the HTTP GET + status check + JSON parse: on any
exception the empty list is returned; on success with no `items` key the
empty list is returned; otherwise the first `limit` items are normalized in
order. -/
def fetch_books (outcome : Except String GResponse) (limit : Nat) : List GBook :=
  match outcome with
  | Except.error _ => []
  | Except.ok data =>
    match data.items with
    | none => []
    | some items => (items.take limit).map format_item

/-- The books-catalog popularity score (src/googleapi.py lines 73–83): each
term guarded by truthiness of its input field. -/
def calculate_popularity (book : GBook) : ℚ :=
  let score : ℚ := 0
  let score := if truthyQ book.avg_rating then
      score + (min (book.avg_rating.getD 0) 5 / 5) * 50
    else score
  let score := if truthyI book.ratings_count then
      score + min ((book.ratings_count.getD 0 : ℚ) / 10) 30
    else score
  let score := if truthyI book.pageCount then
      score + min ((book.pageCount.getD 0 : ℚ) / 100) 10
    else score
  let score := if !book.categories.isEmpty then score + 10 else score
  pyRound2 score

/-- The stylesheet returned by `make_css` (src/googleapi.py lines 85–103). -/
def make_css : String :=
  "
body \x7bfont-family:Arial,sans-serif;background:linear-gradient(135deg,#f5f7fa 0%,#c3cfe2 100%);padding:20px;\x7d
.container \x7bmax-width:1200px;margin:0 auto;\x7d
.header \x7bbackground:white;padding:20px;border-radius:10px;text-align:center;margin-bottom:20px;\x7d
.grid \x7bdisplay:grid;grid-template-columns:repeat(auto-fit,minmax(350px,1fr));gap:20px;\x7d
.card \x7bbackground:white;padding:20px;border-radius:10px;box-shadow:0 4px 6px rgba(0,0,0,0.1);position:relative;\x7d
.card h2 \x7bcolor:#2c3e50;font-size:1.2em;margin-bottom:4px;\x7d
.card p \x7bcolor:#555;margin:6px 0;\x7d
.score \x7bposition:absolute;top:10px;right:10px;background:#e67e22;color:white;padding:7px 14px;border-radius:18px;font-weight:bold;\x7d
.cover \x7btext-align:center;margin:10px 0;\x7d
.cover img \x7bmax-width:100px;border-radius:6px;box-shadow:0 2px 4px rgba(0,0,0,0.18);\x7d
.no-cover \x7bwidth:100px;height:150px;background:#95a5a6;display:inline-flex;align-items:center;justify-content:center;border-radius:5px;color:white;font-weight:bold;\x7d
.meta \x7bfont-size:0.95em;color:#888;\x7d
.chips \x7bmargin-top:7px;\x7d
.chip \x7bbackground:#d1eaff;color:#2c3e50;padding:4px 9px;border-radius:12px;font-size:0.85em;margin-right:7px;display:inline-block;\x7d
a.link \x7bcolor:#337ab7;text-decoration:none;\x7d
a.link:hover \x7btext-decoration: underline;\x7d
"

/-- The `authors` local of `make_card` (src/googleapi.py line 106). -/
def g_authors_text (book : GBook) : String :=
  if !book.authors.isEmpty then String.intercalate ", " book.authors
  else "Unknown"

/-- The `cats` local of `make_card` (src/googleapi.py line 107): one chip
per category, each category name escaped, at most five. -/
def cats_html (book : GBook) : String :=
  String.join ((book.categories.take 5).map
    (fun c => "<span class=\"chip\">" ++ htmlEscape c ++ "</span>"))

/-- The `rating` local of `make_card` (src/googleapi.py line 108). -/
def rating_text (book : GBook) : String :=
  if truthyQ book.avg_rating then
    pyStr (book.avg_rating.getD 0) ++ "⭐ (" ++ pyOptI book.ratings_count ++ ")"
  else "No ratings"

/-- The `desc` local of `make_card` (src/googleapi.py line 109): the raw
description truncated to 300 code points, with an ellipsis when longer.  No
escaping is applied to it. -/
def desc_text (book : GBook) : String :=
  pyTake book.description 300 ++
  (if book.description ≠ "" ∧ book.description.data.length > 300 then "..."
   else "")

/-- The `isbns` local of `make_card` (src/googleapi.py line 110): the
present, non-empty identifiers joined with `" / "`. -/
def isbns_text (book : GBook) : String :=
  String.intercalate " / "
    (([book.isbn_10, book.isbn_13].filterMap id).filter (fun s => s != ""))

/-- The `preview_link` local of `make_card` (src/googleapi.py line 111):
`infoLink or previewLink` interpolated verbatim into the anchor. -/
def preview_link_html (book : GBook) : String :=
  "<a class=\"link\" href=\"" ++
  (if truthyS book.infoLink then book.infoLink.getD ""
   else pyOptS book.previewLink) ++
  "\" target=\"_blank\">View</a>"

/-- The `img` local of `make_card` (src/googleapi.py line 112): the
thumbnail URL emitted verbatim, or a placeholder. -/
def img_html (book : GBook) : String :=
  if truthyS book.image_url then
    "<img src=\"" ++ book.image_url.getD "" ++ "\" alt=\"Cover\">"
  else "<div class='cover'>No Cover</div>"

/-- One HTML card (src/googleapi.py lines 105–125).  Title, authors,
publisher, date and category chips pass through `htmlEscape`; the
description, the ISBN identifiers and the URLs are emitted verbatim. -/
def make_card (book : GBook) : String :=
  "\n    <div class=\"card\">\n      <div class=\"score\">" ++
  pyStr (calculate_popularity book) ++
  "</div>\n      <div class=\"cover\">" ++ img_html book ++
  "</div>\n      <h2>" ++ htmlEscape book.title ++
  "</h2>\n      <div class=\"meta\">" ++ htmlEscape (g_authors_text book) ++
  ", " ++ htmlEscape (book.publisher.getD "") ++
  " | " ++ htmlEscape (book.publishedDate.getD "") ++
  "</div>\n      <div>" ++ preview_link_html book ++
  "</div>\n      <div class=\"chips\">" ++ cats_html book ++
  "</div>\n      <p class=\"meta\">Pages: " ++ pyOrI book.pageCount "?" ++
  " | " ++ rating_text book ++
  "</p>\n      <p class=\"meta\">ISBN(s): " ++ isbns_text book ++
  "</p>\n      <p>" ++ desc_text book ++
  "</p>\n    </div>\n    "

/-- The `cards` local of `save_html` (src/googleapi.py line 139): one card
per book, in input order. -/
def g_cards (books : List GBook) : List String := books.map make_card

/-- One CSV data row (src/googleapi.py lines 132–135), in the fixed column
order of the `fields` list; list-valued fields are joined with `"; "`, the
popularity column is recomputed from the book. -/
def g_csv_row (book : GBook) : List String :=
  [book.title,
   book.subtitle,
   String.intercalate "; " book.authors,
   csvOptS book.publisher,
   csvOptS book.publishedDate,
   csvOptI book.pageCount,
   String.intercalate "; " book.categories,
   csvOptS book.language,
   csvOptS book.isbn_10,
   csvOptS book.isbn_13,
   csvOptQ book.avg_rating,
   csvOptI book.ratings_count,
   csvOptS book.previewLink,
   csvOptS book.infoLink,
   pyStr (calculate_popularity book)]

/-- The data rows written by `save_csv` (src/googleapi.py lines 127–136):
one row per book in input order, with no special case for the empty list. -/
def g_save_csv (books : List GBook) : List (List String) := books.map g_csv_row

/-- The complete document written by `save_html` (src/googleapi.py
lines 138–158).  The echoed query passes through `htmlEscape`
unconditionally; `now` stands for the interpolated timestamp text. -/
def save_html (books : List GBook) (q : String) (total : Int) (now : String) :
    String :=
  "<!DOCTYPE html>\n<html>\n<head>\n<meta charset=\"UTF-8\">\n<title>Google Books Results</title>\n<style>" ++
  make_css ++
  "</style>\n</head>\n<body>\n<div class=\"container\">\n  <div class=\"header\">\n    <h1>📚 Google Books Explorer</h1>\n    <p>Query: <b>" ++
  htmlEscape q ++
  "</b></p>\n    <p>Found " ++ toString total ++ " | Showing " ++
  toString books.length ++
  "</p>\n    <p style='font-size:.97em;color:#888;'>Generated: " ++ now ++
  "</p>\n  </div>\n  <div class=\"grid\">" ++ String.join (g_cards books) ++
  "</div>\n</div>\n</body></html>\n"

end GoogleBooks

/-- Validity of a raw library record for scoring purposes: every numeric
signal that feeds the score is non-negative (ratings, engagement counters
and edition counts are counts or averages of counts). -/
def OpenLib.OLRecord.valid (b : OpenLib.OLRecord) : Prop :=
  0 ≤ b.ratings_average.getD 0 ∧ 0 ≤ b.ratings_count.getD 0 ∧
  0 ≤ b.want_to_read_count.getD 0 ∧ 0 ≤ b.currently_reading_count.getD 0 ∧
  0 ≤ b.already_read_count.getD 0 ∧ 0 ≤ b.edition_count.getD 0

/-- Validity of a books-catalog book for scoring purposes: every numeric
signal that feeds the score is non-negative. -/
def GoogleBooks.GBook.valid (g : GoogleBooks.GBook) : Prop :=
  0 ≤ g.avg_rating.getD 0 ∧ 0 ≤ g.ratings_count.getD 0 ∧ 0 ≤ g.pageCount.getD 0

theorem roundHalfEven_intCast (n : ℤ) : roundHalfEven (n : ℚ) = n := by
  simp [roundHalfEven]

theorem pyRound2_eq_of_mul_hundred (q : ℚ) (n : ℤ) (h : q * 100 = (n : ℚ)) :
    pyRound2 q = (n : ℚ) / 100 := by
  rw [pyRound2, h, roundHalfEven_intCast]

theorem roundHalfEven_nonneg (q : ℚ) (h : 0 ≤ q) : 0 ≤ roundHalfEven q := by
  have hf : (0:ℤ) ≤ ⌊q⌋ := Int.floor_nonneg.mpr h
  unfold roundHalfEven
  dsimp only
  split
  · exact hf
  · split
    · omega
    · split
      · exact hf
      · omega

theorem pyRound2_nonneg (q : ℚ) (h : 0 ≤ q) : 0 ≤ pyRound2 q := by
  have hr : (0:ℤ) ≤ roundHalfEven (q * 100) := roundHalfEven_nonneg _ (by positivity)
  rw [pyRound2]
  positivity

theorem foldl_append_data (l : List String) (init : String) :
    (l.foldl (fun r s => r ++ s) init).data = init.data ++ (l.map String.data).flatten := by
  induction l generalizing init with
  | nil => simp
  | cons hd tl ih => simp [ih, String.data_append, List.append_assoc]

theorem join_data (l : List String) :
    (String.join l).data = (l.map String.data).flatten := by
  simp [String.join, foldl_append_data]

theorem infixOf_here (s u : String) : s.data <:+: (s ++ u).data :=
  ⟨[], u.data, by simp⟩

theorem infixOf_append_left (s u : String) (t : List Char) (h : t <:+: u.data) :
    t <:+: (s ++ u).data := by
  rw [String.data_append]
  obtain ⟨p, q, hpq⟩ := h
  exact ⟨s.data ++ p, q, by rw [← hpq]; simp⟩

theorem infixOf_append_right (s u : String) (t : List Char) (h : t <:+: s.data) :
    t <:+: (s ++ u).data := by
  rw [String.data_append]
  obtain ⟨p, q, hpq⟩ := h
  exact ⟨p, q ++ u.data, by rw [← hpq]; simp⟩

theorem infixOf_flatten_of_mem (l : List String) (x : String) (h : x ∈ l) :
    x.data <:+: (String.join l).data := by
  rw [join_data]
  exact List.infix_of_mem_flatten (List.mem_map_of_mem String.data h)

theorem escapeChar_no_special (c : Char) :
    ∀ d ∈ (escapeChar c).data, d ≠ '<' ∧ d ≠ '>' ∧ d ≠ '"' ∧ d ≠ '\'' := by
  unfold escapeChar
  split
  · decide
  · split
    · decide
    · split
      · decide
      · split
        · decide
        · split
          · decide
          · rename_i h1 h2 h3 h4 h5
            intro d hd
            have : d = c := by simpa [String.singleton] using hd
            subst this
            exact ⟨h2, h3, h4, h5⟩

theorem htmlEscape_no_special (s : String) :
    ∀ d ∈ (htmlEscape s).data, d ≠ '<' ∧ d ≠ '>' ∧ d ≠ '"' ∧ d ≠ '\'' := by
  intro d hd
  rw [htmlEscape, join_data] at hd
  rw [List.map_map] at hd
  obtain ⟨piece, hp, hdp⟩ := List.mem_flatten.mp hd
  obtain ⟨c0, _, rfl⟩ := List.mem_map.mp hp
  exact escapeChar_no_special c0 d hdp

/-- C3: for every input on which the remote fetch raises an exception, the
library fetcher returns the empty-results structure and the books-catalog
fetcher returns the empty list, and each is indistinguishable from a genuine
zero-results response. -/
theorem C3_fetch_failure_empty (e : String) (limit : Nat) :
    OpenLib.search_books (Except.error e) = { docs := [], numFound := 0 } ∧
    GoogleBooks.fetch_books (Except.error e) limit = [] ∧
    OpenLib.search_books (Except.error e) =
      OpenLib.search_books (Except.ok { docs := [], numFound := 0 }) ∧
    GoogleBooks.fetch_books (Except.error e) limit =
      GoogleBooks.fetch_books (Except.ok { items := none }) limit :=
  ⟨rfl, rfl, rfl, rfl⟩

/-- C6: each non-empty facet is rendered as its clause (author, title and
subject quoted, language unquoted), clauses are joined with " AND ", the
example facets compose to the expected query, and all-empty input yields the
wildcard query. -/
theorem C6_query_builder :
    OpenLib.build_query "" "Tolkien" "Hobbit" "" "" =
      "author:\"Tolkien\" AND title:\"Hobbit\"" ∧
    OpenLib.build_query "" "" "" "" "" = "*" ∧
    (∀ q a t s l, a ≠ "" →
      ("author:\"" ++ a ++ "\"") ∈ OpenLib.query_parts q a t s l) ∧
    (∀ q a t s l, t ≠ "" →
      ("title:\"" ++ t ++ "\"") ∈ OpenLib.query_parts q a t s l) ∧
    (∀ q a t s l, s ≠ "" →
      ("subject:\"" ++ s ++ "\"") ∈ OpenLib.query_parts q a t s l) ∧
    (∀ q a t s l, l ≠ "" →
      ("language:" ++ l) ∈ OpenLib.query_parts q a t s l) ∧
    (∀ q a t s l, OpenLib.query_parts q a t s l ≠ [] →
      OpenLib.build_query q a t s l =
        String.intercalate " AND " (OpenLib.query_parts q a t s l)) := by
  refine ⟨by decide, by decide, ?_, ?_, ?_, ?_, ?_⟩
  · intro q a t s l h
    simp [OpenLib.query_parts, h]
  · intro q a t s l h
    simp [OpenLib.query_parts, h]
  · intro q a t s l h
    simp [OpenLib.query_parts, h]
  · intro q a t s l h
    simp [OpenLib.query_parts, h]
  · intro q a t s l h
    rw [OpenLib.build_query]
    rw [if_neg]
    simpa [List.isEmpty_iff] using h

/-- Witness for C6 at the concrete facets of the claim. -/
theorem C6_query_builder_witness :
    ("Tolkien" : String) ≠ "" ∧
    ("author:\"" ++ "Tolkien" ++ "\"") ∈
      OpenLib.query_parts "" "Tolkien" "Hobbit" "" "" :=
  ⟨by decide, C6_query_builder.2.2.1 "" "Tolkien" "Hobbit" "" "" (by decide)⟩

/-- C7: both renderers produce exactly one output unit per input book — one
CSV data row and one HTML card — and in the input order. -/
theorem C7_renderer_counts (books : List OpenLib.FormattedBook)
    (gbooks : List GoogleBooks.GBook) (i : Nat) :
    (OpenLib.save_csv books).length = books.length ∧
    (OpenLib.cards_html books).length = books.length ∧
    (GoogleBooks.g_save_csv gbooks).length = gbooks.length ∧
    (GoogleBooks.g_cards gbooks).length = gbooks.length ∧
    (OpenLib.save_csv books)[i]? = books[i]?.map OpenLib.csv_row ∧
    (OpenLib.cards_html books)[i]? = books[i]?.map OpenLib.card_html ∧
    (GoogleBooks.g_save_csv gbooks)[i]? = gbooks[i]?.map GoogleBooks.g_csv_row ∧
    (GoogleBooks.g_cards gbooks)[i]? = gbooks[i]?.map GoogleBooks.make_card := by
  have hsave : OpenLib.save_csv books = books.map OpenLib.csv_row := by
    by_cases hb : books.isEmpty
    · rw [OpenLib.save_csv, if_pos hb, List.isEmpty_iff.mp hb]
      rfl
    · rw [OpenLib.save_csv, if_neg hb]
  refine ⟨?_, ?_, ?_, ?_, ?_, ?_, ?_, ?_⟩ <;>
    simp [hsave, OpenLib.cards_html, GoogleBooks.g_save_csv, GoogleBooks.g_cards]

/-- C8: availability is decided by the fixed priority list over the four
flags, first match wins, and depends on nothing but those four flags. -/
theorem C8_availability_priority :
    (∀ b : OpenLib.OLRecord, b.has_fulltext = true →
      OpenLib.get_availability b = "Full Text Available") ∧
    (∀ b : OpenLib.OLRecord, b.has_fulltext = false →
      truthyS b.lending_edition_s = true →
      OpenLib.get_availability b = "Available for Lending") ∧
    (∀ b : OpenLib.OLRecord, b.has_fulltext = false →
      truthyS b.lending_edition_s = false → b.public_scan_b = true →
      OpenLib.get_availability b = "Public Scan Available") ∧
    (∀ b : OpenLib.OLRecord, b.has_fulltext = false →
      truthyS b.lending_edition_s = false → b.public_scan_b = false →
      b.ia ≠ [] → OpenLib.get_availability b = "Archive.org Available") ∧
    (∀ b : OpenLib.OLRecord, b.has_fulltext = false →
      truthyS b.lending_edition_s = false → b.public_scan_b = false →
      b.ia = [] → OpenLib.get_availability b = "Metadata Only") ∧
    (∀ b₁ b₂ : OpenLib.OLRecord, b₁.has_fulltext = b₂.has_fulltext →
      b₁.lending_edition_s = b₂.lending_edition_s →
      b₁.public_scan_b = b₂.public_scan_b → b₁.ia = b₂.ia →
      OpenLib.get_availability b₁ = OpenLib.get_availability b₂) := by
  refine ⟨?_, ?_, ?_, ?_, ?_, ?_⟩
  · intro b h
    simp [OpenLib.get_availability, h]
  · intro b h1 h2
    simp [OpenLib.get_availability, h1, h2]
  · intro b h1 h2 h3
    simp [OpenLib.get_availability, h1, h2, h3]
  · intro b h1 h2 h3 h4
    simp [OpenLib.get_availability, h1, h2, h3, h4]
  · intro b h1 h2 h3 h4
    simp [OpenLib.get_availability, h1, h2, h3, h4]
  · intro b₁ b₂ h1 h2 h3 h4
    simp [OpenLib.get_availability, h1, h2, h3, h4]

/-- Record with both the full-text flag and a lending edition set. -/
def w8both : OpenLib.OLRecord :=
  { has_fulltext := true, lending_edition_s := some "OL1M" }

/-- Record with none of the four availability flags. -/
def w8none : OpenLib.OLRecord := {}

/-- Witness for C8: the both-flags record classifies as full text, the
no-flags record as metadata only. -/
theorem C8_availability_priority_witness :
    (w8both.has_fulltext = true ∧
      OpenLib.get_availability w8both = "Full Text Available") ∧
    (w8none.has_fulltext = false ∧ truthyS w8none.lending_edition_s = false ∧
      w8none.public_scan_b = false ∧ w8none.ia = [] ∧
      OpenLib.get_availability w8none = "Metadata Only") :=
  ⟨⟨rfl, C8_availability_priority.1 w8both rfl⟩,
   ⟨rfl, rfl, rfl, rfl,
    C8_availability_priority.2.2.2.2.1 w8none rfl rfl rfl rfl⟩⟩

/-- C9: the reading level uses strict comparisons — 400 pages and 0 or
absent pages classify as Beginner, 800 as Intermediate, and only counts
above 800 as Advanced. -/
theorem C9_reading_level_boundaries :
    (∀ b : OpenLib.OLRecord, b.number_of_pages_median = some 400 →
      OpenLib.get_reading_level b = "Beginner") ∧
    (∀ b : OpenLib.OLRecord, b.number_of_pages_median = some 800 →
      OpenLib.get_reading_level b = "Intermediate") ∧
    (∀ (b : OpenLib.OLRecord) (p : Int), b.number_of_pages_median = some p →
      800 < p → OpenLib.get_reading_level b = "Advanced") ∧
    (∀ b : OpenLib.OLRecord, b.number_of_pages_median = some 0 →
      OpenLib.get_reading_level b = "Beginner") ∧
    (∀ b : OpenLib.OLRecord, b.number_of_pages_median = none →
      OpenLib.get_reading_level b = "Beginner") := by
  refine ⟨?_, ?_, ?_, ?_, ?_⟩
  · intro b h
    simp [OpenLib.get_reading_level, h]
  · intro b h
    simp [OpenLib.get_reading_level, h]
  · intro b p h hp
    simp only [OpenLib.get_reading_level, h, Option.getD_some]
    rw [if_pos hp]
  · intro b h
    simp [OpenLib.get_reading_level, h]
  · intro b h
    simp [OpenLib.get_reading_level, h]

/-- Record with exactly 400 median pages. -/
def w9a : OpenLib.OLRecord := { number_of_pages_median := some 400 }

/-- Record with exactly 800 median pages. -/
def w9b : OpenLib.OLRecord := { number_of_pages_median := some 800 }

/-- Record with 801 median pages. -/
def w9c : OpenLib.OLRecord := { number_of_pages_median := some 801 }

/-- Witness for C9 at the three boundary page counts. -/
theorem C9_reading_level_boundaries_witness :
    (w9a.number_of_pages_median = some 400 ∧
      OpenLib.get_reading_level w9a = "Beginner") ∧
    (w9b.number_of_pages_median = some 800 ∧
      OpenLib.get_reading_level w9b = "Intermediate") ∧
    (w9c.number_of_pages_median = some 801 ∧ (800:ℤ) < 801 ∧
      OpenLib.get_reading_level w9c = "Advanced") :=
  ⟨⟨rfl, C9_reading_level_boundaries.1 w9a rfl⟩,
   ⟨rfl, C9_reading_level_boundaries.2.1 w9b rfl⟩,
   ⟨rfl, by decide, C9_reading_level_boundaries.2.2.1 w9c 801 rfl (by decide)⟩⟩

/-- C10: both scorers treat a zero-valued field exactly like an absent one —
zero ratings-count (or zero average) removes both library rating terms, and
a zero average removes the books-catalog rating term. -/
theorem C10_zero_treated_as_absent :
    (∀ b : OpenLib.OLRecord, b.ratings_count = some 0 →
      OpenLib.calculate_popularity b = OpenLib.calculate_popularity
        { b with ratings_average := none, ratings_count := none }) ∧
    (∀ b : OpenLib.OLRecord, b.ratings_average = some 0 →
      OpenLib.calculate_popularity b = OpenLib.calculate_popularity
        { b with ratings_average := none, ratings_count := none }) ∧
    (∀ g : GoogleBooks.GBook, g.avg_rating = some 0 →
      GoogleBooks.calculate_popularity g =
        GoogleBooks.calculate_popularity { g with avg_rating := none }) := by
  refine ⟨?_, ?_, ?_⟩ <;> intro x h <;>
    simp [OpenLib.calculate_popularity, GoogleBooks.calculate_popularity,
      truthyQ, truthyI, h]

/-- Record with a positive average but zero rating count. -/
def w10a : OpenLib.OLRecord := { ratings_average := some 4, ratings_count := some 0 }

/-- Record with a zero average but positive rating count. -/
def w10b : OpenLib.OLRecord := { ratings_average := some 0, ratings_count := some 200 }

/-- Books-catalog record with a zero average rating. -/
def w10g : GoogleBooks.GBook := { avg_rating := some 0, ratings_count := some 50 }

/-- Witness for C10 at concrete zero-valued records. -/
theorem C10_zero_treated_as_absent_witness :
    (w10a.ratings_count = some 0 ∧
      OpenLib.calculate_popularity w10a = OpenLib.calculate_popularity
        { w10a with ratings_average := none, ratings_count := none }) ∧
    (w10b.ratings_average = some 0 ∧
      OpenLib.calculate_popularity w10b = OpenLib.calculate_popularity
        { w10b with ratings_average := none, ratings_count := none }) ∧
    (w10g.avg_rating = some 0 ∧
      GoogleBooks.calculate_popularity w10g =
        GoogleBooks.calculate_popularity { w10g with avg_rating := none }) :=
  ⟨⟨rfl, C10_zero_treated_as_absent.1 w10a rfl⟩,
   ⟨rfl, C10_zero_treated_as_absent.2.1 w10b rfl⟩,
   ⟨rfl, C10_zero_treated_as_absent.2.2 w10g rfl⟩⟩

/-- The raw record of the library-source end-to-end scenario. -/
def c1rec : OpenLib.OLRecord :=
  { title := some "T", author_name := ["A"], ratings_average := some 4,
    ratings_count := some 200, edition_count := some 3, has_fulltext := true }

theorem c1_pop : OpenLib.calculate_popularity c1rec = 29 := by
  have h : OpenLib.calculate_popularity c1rec = pyRound2 29 := by
    simp [OpenLib.calculate_popularity, c1rec, truthyQ, truthyI, truthyS,
      bne_iff_ne]
    norm_num [min_def]
  rw [h, pyRound2_eq_of_mul_hundred 29 2900 (by norm_num)]
  norm_num

/-- C1: the library-source end-to-end scenario record — the claimed outputs
(popularity 47.0, "Full Text Available", "Beginner") do not all hold: the
code computes min(200/100, 20) = 2, not 20, so the popularity is 29.0. -/
theorem C1_scenario_counterexample :
    ¬ (OpenLib.calculate_popularity c1rec = 47 ∧
       OpenLib.get_availability c1rec = "Full Text Available" ∧
       OpenLib.get_reading_level c1rec = "Beginner") := by
  intro hc
  rw [c1_pop] at hc
  exact absurd hc.1 (by norm_num)

/-- C1 (amended): on the scenario record the popularity is 29.0 — the
rating-average term contributes 16, the capped count term min(200/100, 20)
contributes 2, the reading counters 0, the edition term 6 and the full-text
flag 5 — while availability is "Full Text Available" and the reading level
is "Beginner" as claimed. -/
theorem C1_scenario_amended :
    OpenLib.calculate_popularity c1rec = 29 ∧
    OpenLib.get_availability c1rec = "Full Text Available" ∧
    OpenLib.get_reading_level c1rec = "Beginner" :=
  ⟨c1_pop, rfl, rfl⟩

/-- The books-catalog end-to-end scenario record. -/
def c5rec : GoogleBooks.GBook :=
  { avg_rating := some 3, ratings_count := some 50, pageCount := some 250,
    categories := ["Fiction"] }

/-- C5: the books-catalog scenario record scores 47.5 — the rating term 30,
the capped count term 5, the page term 2.5 and the category bonus 10. -/
theorem C5_catalog_scenario : GoogleBooks.calculate_popularity c5rec = 47.5 := by
  have h : GoogleBooks.calculate_popularity c5rec = pyRound2 (95/2) := by
    simp [GoogleBooks.calculate_popularity, c5rec, truthyQ, truthyI,
      bne_iff_ne]
    norm_num [min_def]
  rw [h, pyRound2_eq_of_mul_hundred (95/2) 4750 (by norm_num)]
  norm_num

/-- C4: each source's popularity scorer is a pure function — two evaluations
on the same input coincide — and on every valid book (all numeric signals
non-negative) the score is non-negative and is an integer multiple of 1/100,
i.e. rounded to exactly two decimal places. -/
theorem C4_popularity_properties :
    (∀ b : OpenLib.OLRecord, OpenLib.OLRecord.valid b →
      OpenLib.calculate_popularity b = OpenLib.calculate_popularity b ∧
      0 ≤ OpenLib.calculate_popularity b ∧
      ∃ n : ℤ, OpenLib.calculate_popularity b = (n : ℚ) / 100) ∧
    (∀ g : GoogleBooks.GBook, GoogleBooks.GBook.valid g →
      GoogleBooks.calculate_popularity g = GoogleBooks.calculate_popularity g ∧
      0 ≤ GoogleBooks.calculate_popularity g ∧
      ∃ n : ℤ, GoogleBooks.calculate_popularity g = (n : ℚ) / 100) := by
  constructor
  · intro b hb
    obtain ⟨h1, h2, h3, h4, h5, h6⟩ := hb
    refine ⟨rfl, ?_, ?_⟩
    · unfold OpenLib.calculate_popularity
      apply pyRound2_nonneg
      have c2 : (0:ℚ) ≤ ((b.ratings_count.getD 0 : ℚ)) := by exact_mod_cast h2
      have c3 : (0:ℚ) ≤ (((b.want_to_read_count.getD 0 +
          b.currently_reading_count.getD 0 + b.already_read_count.getD 0 : ℤ) : ℚ)) := by
        exact_mod_cast add_nonneg (add_nonneg h3 h4) h5
      have c6 : (0:ℚ) ≤ ((b.edition_count.getD 0 : ℚ)) := by exact_mod_cast h6
      have mr : (0:ℚ) ≤ (b.ratings_average.getD 0 / 5) * 20 :=
        mul_nonneg (div_nonneg h1 (by norm_num)) (by norm_num)
      have m1 : (0:ℚ) ≤ min ((b.ratings_count.getD 0 : ℚ) / 100) 20 :=
        le_min (div_nonneg c2 (by norm_num)) (by norm_num)
      have m2 : (0:ℚ) ≤ min (((b.want_to_read_count.getD 0 +
          b.currently_reading_count.getD 0 + b.already_read_count.getD 0 : ℤ) : ℚ) / 50) 30 :=
        le_min (div_nonneg c3 (by norm_num)) (by norm_num)
      have m3 : (0:ℚ) ≤ min ((b.edition_count.getD 0 : ℚ) * 2) 20 :=
        le_min (mul_nonneg c6 (by norm_num)) (by norm_num)
      split <;> split <;> split <;> linarith
    · unfold OpenLib.calculate_popularity pyRound2
      exact ⟨_, rfl⟩
  · intro g hg
    obtain ⟨h1, h2, h3⟩ := hg
    refine ⟨rfl, ?_, ?_⟩
    · unfold GoogleBooks.calculate_popularity
      apply pyRound2_nonneg
      have gr : (0:ℚ) ≤ (min (g.avg_rating.getD 0) 5 / 5) * 50 :=
        mul_nonneg (div_nonneg (le_min h1 (by norm_num)) (by norm_num)) (by norm_num)
      have g1 : (0:ℚ) ≤ min ((g.ratings_count.getD 0 : ℚ) / 10) 30 :=
        le_min (div_nonneg (by exact_mod_cast h2) (by norm_num)) (by norm_num)
      have g2 : (0:ℚ) ≤ min ((g.pageCount.getD 0 : ℚ) / 100) 10 :=
        le_min (div_nonneg (by exact_mod_cast h3) (by norm_num)) (by norm_num)
      split <;> split <;> split <;> split <;> linarith
    · unfold GoogleBooks.calculate_popularity pyRound2
      exact ⟨_, rfl⟩

/-- An all-defaults valid library record. -/
def w4b : OpenLib.OLRecord := {}

/-- An all-defaults valid books-catalog record. -/
def w4g : GoogleBooks.GBook := {}

/-- Witness for C4 at concrete valid records. -/
theorem C4_popularity_properties_witness :
    OpenLib.OLRecord.valid w4b ∧ GoogleBooks.GBook.valid w4g ∧
    0 ≤ OpenLib.calculate_popularity w4b ∧
    0 ≤ GoogleBooks.calculate_popularity w4g :=
  ⟨by simp [OpenLib.OLRecord.valid, w4b],
   by simp [GoogleBooks.GBook.valid, w4g],
   (C4_popularity_properties.1 w4b (by simp [OpenLib.OLRecord.valid, w4b])).2.1,
   (C4_popularity_properties.2 w4g (by simp [GoogleBooks.GBook.valid, w4g])).2.1⟩

/-- A books-catalog record whose description carries markup. -/
def c2bad : GoogleBooks.GBook :=
  { title := "<T>", description := "x<script>alert(1)</script>" }

theorem c2bad_desc_in_card :
    (GoogleBooks.desc_text c2bad).data <:+: (GoogleBooks.make_card c2bad).data := by
  unfold GoogleBooks.make_card
  simp only [String.append_assoc]
  iterate 23 apply infixOf_append_left
  exact infixOf_here _ _

theorem infixOf_here_right (s u : String) : u.data <:+: (s ++ u).data :=
  ⟨s.data, [], by simp⟩

/-- C2: the books-catalog card renderer emits the provider-controlled
description text verbatim — the raw markup `<script>alert(1)</script>`
appears unescaped in the rendered card, although escaping it would have
produced `&lt;script&gt;…` — so it is not the case that all
provider-controlled text destined for HTML is escaped. -/
theorem C2_escaping_counterexample :
    "<script>alert(1)</script>".data <:+: (GoogleBooks.make_card c2bad).data ∧
    htmlEscape "x<script>alert(1)</script>" =
      "x&lt;script&gt;alert(1)&lt;/script&gt;" ∧
    '<' ∈ "<script>alert(1)</script>".data := by
  have h1 : "<script>alert(1)</script>".data <:+:
      (GoogleBooks.desc_text c2bad).data := by decide
  exact ⟨List.IsInfix.trans h1 c2bad_desc_in_card, by decide, by decide⟩

/-- C2 (amended): the escape function removes every HTML-significant
character, and the renderers pass exactly the claimed fields through it —
title, author list, subject/category text, publisher, date and the echoed
query all appear in escaped form, while URLs are emitted verbatim; however
the books-catalog renderer also emits the raw (truncated) description text
and the raw ISBN identifier text without escaping. -/
theorem C2_escaping_amended :
    (∀ s : String, ∀ d ∈ (htmlEscape s).data,
      d ≠ '<' ∧ d ≠ '>' ∧ d ≠ '"' ∧ d ≠ '\'') ∧
    (∀ bk : OpenLib.FormattedBook,
      (htmlEscape bk.title).data <:+: (OpenLib.card_html bk).data ∧
      (htmlEscape (OpenLib.authors_text bk)).data <:+: (OpenLib.card_html bk).data ∧
      (htmlEscape (OpenLib.subjects_text bk)).data <:+: (OpenLib.card_html bk).data ∧
      bk.url.data <:+: (OpenLib.card_html bk).data) ∧
    (∀ (bk : OpenLib.FormattedBook) (u : String), bk.cover_url = some u →
      u ≠ "" → u.data <:+: (OpenLib.card_html bk).data) ∧
    (∀ (books : List OpenLib.FormattedBook) (q : String) (total : Int)
      (now : String), q ≠ "" →
      (htmlEscape q).data <:+: (OpenLib.generate_html books q total now).data) ∧
    (∀ b : GoogleBooks.GBook,
      (htmlEscape b.title).data <:+: (GoogleBooks.make_card b).data ∧
      (htmlEscape (GoogleBooks.g_authors_text b)).data <:+:
        (GoogleBooks.make_card b).data ∧
      (htmlEscape (b.publisher.getD "")).data <:+: (GoogleBooks.make_card b).data ∧
      (htmlEscape (b.publishedDate.getD "")).data <:+:
        (GoogleBooks.make_card b).data ∧
      (GoogleBooks.desc_text b).data <:+: (GoogleBooks.make_card b).data ∧
      (GoogleBooks.isbns_text b).data <:+: (GoogleBooks.make_card b).data) ∧
    (∀ (b : GoogleBooks.GBook) (c : String), c ∈ b.categories.take 5 →
      (htmlEscape c).data <:+: (GoogleBooks.make_card b).data) ∧
    (∀ (b : GoogleBooks.GBook) (u : String), b.image_url = some u → u ≠ "" →
      u.data <:+: (GoogleBooks.make_card b).data) ∧
    (∀ (books : List GoogleBooks.GBook) (q : String) (total : Int)
      (now : String),
      (htmlEscape q).data <:+: (GoogleBooks.save_html books q total now).data) := by
  refine ⟨htmlEscape_no_special, ?_, ?_, ?_, ?_, ?_, ?_, ?_⟩
  · intro bk
    refine ⟨?_, ?_, ?_, ?_⟩
    · unfold OpenLib.card_html
      simp only [String.append_assoc]
      iterate 3 apply infixOf_append_left
      exact infixOf_here _ _
    · unfold OpenLib.card_html
      simp only [String.append_assoc]
      iterate 5 apply infixOf_append_left
      exact infixOf_here _ _
    · unfold OpenLib.card_html
      simp only [String.append_assoc]
      iterate 25 apply infixOf_append_left
      exact infixOf_here _ _
    · unfold OpenLib.card_html
      simp only [String.append_assoc]
      iterate 27 apply infixOf_append_left
      exact infixOf_here _ _
  · intro bk u h hu
    have hc : OpenLib.cover_html bk = "<img src=\"" ++ u ++ "\">" := by
      unfold OpenLib.cover_html
      rw [h]
      rw [if_pos (by simpa [truthyS, bne_iff_ne] using hu)]
      rfl
    unfold OpenLib.card_html
    rw [hc]
    simp only [String.append_assoc]
    iterate 8 apply infixOf_append_left
    exact infixOf_here _ _
  · intro books q total now h
    unfold OpenLib.generate_html
    rw [if_pos h]
    simp only [String.append_assoc]
    iterate 3 apply infixOf_append_left
    exact infixOf_here _ _
  · intro b
    refine ⟨?_, ?_, ?_, ?_, ?_, ?_⟩
    · unfold GoogleBooks.make_card
      simp only [String.append_assoc]
      iterate 5 apply infixOf_append_left
      exact infixOf_here _ _
    · unfold GoogleBooks.make_card
      simp only [String.append_assoc]
      iterate 7 apply infixOf_append_left
      exact infixOf_here _ _
    · unfold GoogleBooks.make_card
      simp only [String.append_assoc]
      iterate 9 apply infixOf_append_left
      exact infixOf_here _ _
    · unfold GoogleBooks.make_card
      simp only [String.append_assoc]
      iterate 11 apply infixOf_append_left
      exact infixOf_here _ _
    · unfold GoogleBooks.make_card
      simp only [String.append_assoc]
      iterate 23 apply infixOf_append_left
      exact infixOf_here _ _
    · unfold GoogleBooks.make_card
      simp only [String.append_assoc]
      iterate 21 apply infixOf_append_left
      exact infixOf_here _ _
  · intro b c hc
    have hA : (htmlEscape c).data <:+: (GoogleBooks.cats_html b).data := by
      unfold GoogleBooks.cats_html
      refine List.IsInfix.trans ?_
        (infixOf_flatten_of_mem _ _ (List.mem_map_of_mem _ hc))
      simp only [String.append_assoc]
      apply infixOf_append_left
      exact infixOf_here _ _
    have hB : (GoogleBooks.cats_html b).data <:+: (GoogleBooks.make_card b).data := by
      unfold GoogleBooks.make_card
      simp only [String.append_assoc]
      iterate 15 apply infixOf_append_left
      exact infixOf_here _ _
    exact List.IsInfix.trans hA hB
  · intro b u h hu
    have hi : GoogleBooks.img_html b = "<img src=\"" ++ u ++ "\" alt=\"Cover\">" := by
      unfold GoogleBooks.img_html
      rw [h]
      rw [if_pos (by simpa [truthyS, bne_iff_ne] using hu)]
      rfl
    unfold GoogleBooks.make_card
    rw [hi]
    simp only [String.append_assoc]
    iterate 4 apply infixOf_append_left
    exact infixOf_here _ _
  · intro books q total now
    unfold GoogleBooks.save_html
    simp only [String.append_assoc]
    iterate 3 apply infixOf_append_left
    exact infixOf_here _ _

/-- A formatted library book with a cover URL. -/
def w2bk : OpenLib.FormattedBook :=
  { title := "T", cover_url := some "https://covers.openlibrary.org/b/id/9-M.jpg" }

/-- A books-catalog book with one category and a thumbnail URL. -/
def w2g : GoogleBooks.GBook :=
  { categories := ["Fiction"], image_url := some "https://img.example/t.jpg" }

/-- Witness for C2 (amended) at concrete books, discharging the cover-URL,
non-empty-query, category-membership and image-URL hypotheses. -/
theorem C2_escaping_amended_witness :
    (w2bk.cover_url = some "https://covers.openlibrary.org/b/id/9-M.jpg" ∧
      ("https://covers.openlibrary.org/b/id/9-M.jpg" : String) ≠ "" ∧
      "https://covers.openlibrary.org/b/id/9-M.jpg".data <:+:
        (OpenLib.card_html w2bk).data) ∧
    (("dune" : String) ≠ "" ∧
      (htmlEscape "dune").data <:+:
        (OpenLib.generate_html [] "dune" 0 "2026-10-12 00:00").data) ∧
    ("Fiction" ∈ w2g.categories.take 5 ∧
      (htmlEscape "Fiction").data <:+: (GoogleBooks.make_card w2g).data) ∧
    (w2g.image_url = some "https://img.example/t.jpg" ∧
      ("https://img.example/t.jpg" : String) ≠ "" ∧
      "https://img.example/t.jpg".data <:+: (GoogleBooks.make_card w2g).data) :=
  ⟨⟨rfl, by decide,
    C2_escaping_amended.2.2.1 w2bk "https://covers.openlibrary.org/b/id/9-M.jpg"
      rfl (by decide)⟩,
   ⟨by decide,
    C2_escaping_amended.2.2.2.1 [] "dune" 0 "2026-10-12 00:00" (by decide)⟩,
   ⟨by decide,
    C2_escaping_amended.2.2.2.2.2.1 w2g "Fiction" (by decide)⟩,
   ⟨rfl, by decide,
    C2_escaping_amended.2.2.2.2.2.2.1 w2g "https://img.example/t.jpg" rfl
      (by decide)⟩⟩

/-- Witness for C3 at a concrete error. -/
theorem C3_fetch_failure_empty_witness :
    OpenLib.search_books (Except.error "boom") = { docs := [], numFound := 0 } ∧
    GoogleBooks.fetch_books (Except.error "boom") 10 = [] :=
  ⟨(C3_fetch_failure_empty "boom" 10).1, (C3_fetch_failure_empty "boom" 10).2.1⟩

/-- A one-element formatted library book list member. -/
def w7bk : OpenLib.FormattedBook := { title := "T" }

/-- A one-element books-catalog book list member. -/
def w7g : GoogleBooks.GBook := { title := "G" }

/-- Witness for C7 at concrete one-element lists. -/
theorem C7_renderer_counts_witness :
    (OpenLib.save_csv [w7bk]).length = [w7bk].length ∧
    (GoogleBooks.g_cards [w7g]).length = [w7g].length :=
  ⟨(C7_renderer_counts [w7bk] [w7g] 0).1,
   (C7_renderer_counts [w7bk] [w7g] 0).2.2.2.1⟩
